import Mathlib

/-!
Shallow embedding of the key-event classification state machine of
`odilia-input-server-keyboard` (files `src/lib.rs` and `src/state_machine.rs`),
together with theorems about its behaviour.

Rust `u32` key-symbol codes are embedded as `Nat` (bitwise `|` on values below
`2 ^ 32` never overflows, so no masking is needed for the operations the
classifier uses). The mutable `State` receiver of `State::process` becomes
explicit state passing: the Lean `State.process` returns the classification
paired with the updated state. The external `xkeysym` character resolver
(`Keysym::key_char`, out of scope per the spec) is a function parameter
`charFor : Keysym → Option Char`.
-/

/-- A platform-independent key-symbol code (`pub struct Keysym(pub InnerKeysym)`
in `lib.rs`); equality is by underlying code. -/
structure Keysym where
  raw : Nat
deriving DecidableEq, Repr, BEq

/-- A bit-mask over key-symbol codes (`pub struct ModMask(pub InnerKeysym)` in
`lib.rs`). -/
structure ModMask where
  raw : Nat
deriving DecidableEq, Repr, BEq

/-- `ModMask::empty` from `lib.rs`: the all-zero mask. -/
def ModMask.empty : ModMask := ⟨0⟩

/-- `ModMask::is_empty` from `lib.rs`: the raw code is zero. -/
def ModMask.is_empty (m : ModMask) : Bool := m.raw == 0

/-- `impl BitOr<Keysym> for ModMask` from `lib.rs`: bitwise or of the raw codes. -/
def ModMask.orKey (m : ModMask) (k : Keysym) : ModMask := ⟨m.raw ||| k.raw⟩

/-- `Keystroke` from `state_machine.rs`: a (modifier-mask, trigger-key) pair. -/
structure Keystroke where
  modifiers : ModMask
  keysym : Keysym
deriving DecidableEq, Repr, BEq

/-- `State` from `state_machine.rs`: the mutable state of the classifier. -/
structure State where
  has_client : Bool
  grab_all : Bool
  notify_all : Bool
  modifiers : List Keysym
  pressed_modifiers : ModMask
  keystrokes : List Keystroke
  pressed : List Keysym
deriving DecidableEq, Repr

/-- `KeyEvent` from `state_machine.rs`: the payload forwarded to the AT. -/
structure KeyEvent where
  release : Bool
  state : ModMask
  keysym : Keysym
  unichar : Option Char
  keycode : Nat
deriving DecidableEq, Repr

/-- `KeyEventType` from `state_machine.rs`: the classification result. -/
inductive KeyEventType where
  | Swallow
  | ProcessNormally
  | SendToAT (e : KeyEvent)
  | SendToATAndProcess (e : KeyEvent)
deriving DecidableEq, Repr

/-- The `KeyEvent` payload carried by a classification, when there is one. -/
def KeyEventType.payload : KeyEventType → Option KeyEvent
  | .SendToAT e => some e
  | .SendToATAndProcess e => some e
  | _ => none

/-- `State::process` from `state_machine.rs`, lines 129-204, with the mutation
of `self` made explicit in the result. `charFor` stands for the external
`Keysym::key_char` resolver. The two `pressed_modifiers` mutations that are
commented out in the source (`//self.pressed_modifiers |= key;` and
`//self.pressed_modifiers &= !key;`) are, accordingly, absent here. -/
def State.process (charFor : Keysym → Option Char) (s : State) (key : Keysym)
    (release : Bool) : KeyEventType × State :=
  if !s.has_client then
    (KeyEventType.ProcessNormally, s)
  else
    let key_event_inner : KeyEvent :=
      { release := release
        keysym := key
        unichar := charFor key
        keycode := 0
        state := s.pressed_modifiers }
    let key_event := KeyEventType.SendToAT key_event_inner
    let is_mod_global := s.modifiers.contains key
    let any_pressed_mods := !s.pressed_modifiers.is_empty
    let is_already_pressed := s.pressed.contains key
    let is_mod_local := s.keystrokes.any fun ks => ks.modifiers.orKey key == ks.modifiers
    if s.grab_all && is_mod_global && release then
      (key_event, { s with grab_all := false })
    else if s.grab_all then
      (key_event, s)
    else if s.notify_all then
      (KeyEventType.SendToATAndProcess key_event_inner, s)
    else
      match is_mod_global, any_pressed_mods, is_already_pressed, is_mod_local, release with
      | true, _, _, _, false => (key_event, { s with grab_all := true })
      | true, _, _, _, true => (key_event, { s with grab_all := false })
      | false, true, false, _, false =>
        (key_event, { s with pressed := s.pressed ++ [key] })
      | false, true, true, _, true =>
        (key_event, { s with pressed := s.pressed.filter fun k => k != key })
      | false, false, false, false, _ => (KeyEventType.ProcessNormally, s)
      | false, false, _, _, _ => (key_event, s)
      | false, true, false, _, true => (key_event, s)
      | false, true, true, _, false => (key_event, s)

/-- Serial processing of an event list, threading the state, as the test
harness in `test.rs` does. -/
def State.processSeq (charFor : Keysym → Option Char) :
    State → List (Keysym × Bool) → List KeyEventType × State
  | s, [] => ([], s)
  | s, (k, r) :: rest =>
    let p := s.process charFor k r
    let q := p.2.processSeq charFor rest
    (p.1 :: q.1, q.2)

/-- XKB keysym code of `Caps_Lock` (0xFFE5), used by the repository's tests. -/
def keysymCapsLock : Keysym := ⟨0xFFE5⟩

/-- XKB keysym code of `H` (0x0048), used by the repository's tests. -/
def keysymH : Keysym := ⟨0x0048⟩

/-- XKB keysym code of `F` (0x0046), used by the repository's tests. -/
def keysymF : Keysym := ⟨0x0046⟩

/-- XKB keysym code of `A` (0x0041). -/
def keysymA : Keysym := ⟨0x0041⟩

/-- XKB keysym code of `X` (0x0058). -/
def keysymX : Keysym := ⟨0x0058⟩

/-- A concrete sample character resolver agreeing with the repository's tests:
`H ↦ 'H'`, `F ↦ 'F'`, every other key (in particular `Caps_Lock`) has no
printable mapping. Used to instantiate the `charFor` parameter in concrete
evaluations. -/
def charForTest (k : Keysym) : Option Char :=
  if k == keysymH then some 'H'
  else if k == keysymF then some 'F'
  else none

/-- A state with a client attached, `Caps_Lock` designated as global modifier,
and everything else at its default — the setup of the first test in `test.rs`. -/
def stateGrabIdle : State :=
  { has_client := true, grab_all := false, notify_all := false,
    modifiers := [keysymCapsLock], pressed_modifiers := ModMask.empty,
    keystrokes := [], pressed := [] }

/-- `stateGrabIdle` with a full grab active. -/
def stateGrabbing : State := { stateGrabIdle with grab_all := true }

/-- `stateGrabIdle` with notify-all mode active instead. -/
def stateNotify : State := { stateGrabIdle with notify_all := true }

/-- A detached-client state with every other field deliberately non-default. -/
def stateNoClient : State :=
  { has_client := false, grab_all := true, notify_all := true,
    modifiers := [keysymH], pressed_modifiers := ⟨3⟩,
    keystrokes := [⟨ModMask.empty, keysymF⟩], pressed := [keysymA] }

/-- A client-attached state with empty `modifiers` and `keystrokes` and both
mode flags off, but a non-empty `pressed_modifiers` mask. -/
def stateStrayMask : State :=
  { has_client := true, grab_all := false, notify_all := false,
    modifiers := [], pressed_modifiers := ⟨1⟩,
    keystrokes := [], pressed := [] }

/-- The fully default client-attached state: both mode flags off and every
collection (and the mask) empty. -/
def statePassDefault : State :=
  { has_client := true, grab_all := false, notify_all := false,
    modifiers := [], pressed_modifiers := ModMask.empty,
    keystrokes := [], pressed := [] }

/-- A state in the middle of a held-modifier window: `Caps_Lock` designated and
its code accumulated in the mask, with `H` already tracked in `pressed`. -/
def stateHeld : State :=
  { has_client := true, grab_all := false, notify_all := false,
    modifiers := [keysymCapsLock], pressed_modifiers := ⟨0xFFE5⟩,
    keystrokes := [], pressed := [keysymH] }

/-! ## Branch characterisation lemmas for `State.process` -/

/-- Client gate (lines 130-132): no client means pass-through, no mutation. -/
lemma process_of_no_client (charFor : Keysym → Option Char) (s : State) (key : Keysym)
    (release : Bool) (h : s.has_client = false) :
    s.process charFor key release = (KeyEventType.ProcessNormally, s) := by
  simp [State.process, h]

/-- First override (lines 148-151): release of a designated global modifier
while `grab_all` holds clears `grab_all` and forwards the event. -/
lemma process_of_grab_end (charFor : Keysym → Option Char) (s : State) (key : Keysym)
    (h1 : s.has_client = true) (h2 : s.grab_all = true)
    (h3 : s.modifiers.contains key = true) :
    s.process charFor key true =
      (KeyEventType.SendToAT ⟨true, s.pressed_modifiers, key, charFor key, 0⟩,
       { s with grab_all := false }) := by
  simp [State.process, h1, h2, h3]

/-- Second override (lines 152-154): any other event while `grab_all` holds is
forwarded with no state change. -/
lemma process_of_grab_all (charFor : Keysym → Option Char) (s : State) (key : Keysym)
    (release : Bool) (h1 : s.has_client = true) (h2 : s.grab_all = true)
    (h3 : (s.modifiers.contains key && release) = false) :
    s.process charFor key release =
      (KeyEventType.SendToAT ⟨release, s.pressed_modifiers, key, charFor key, 0⟩, s) := by
  simp [State.process, h1, h2, h3]

/-- Third override (lines 155-157): `notify_all` forwards and processes every
event with no state change. -/
lemma process_of_notify_all (charFor : Keysym → Option Char) (s : State) (key : Keysym)
    (release : Bool) (h1 : s.has_client = true) (h2 : s.grab_all = false)
    (h3 : s.notify_all = true) :
    s.process charFor key release =
      (KeyEventType.SendToATAndProcess ⟨release, s.pressed_modifiers, key, charFor key, 0⟩,
       s) := by
  simp [State.process, h1, h2, h3]

/-- Match arm `(true, _, _, _, false)` (lines 167-172): press of a designated
global modifier sets `grab_all` and forwards the event; `pressed_modifiers` is
untouched, the accumulating assignment being commented out in the source. -/
lemma process_of_global_press (charFor : Keysym → Option Char) (s : State) (key : Keysym)
    (h1 : s.has_client = true) (h2 : s.grab_all = false) (h3 : s.notify_all = false)
    (h4 : s.modifiers.contains key = true) :
    s.process charFor key false =
      (KeyEventType.SendToAT ⟨false, s.pressed_modifiers, key, charFor key, 0⟩,
       { s with grab_all := true }) := by
  rcases Bool.dichotomy s.pressed_modifiers.is_empty with h5 | h5 <;>
    rcases Bool.dichotomy (s.pressed.contains key) with h6 | h6 <;>
    rcases Bool.dichotomy
      (s.keystrokes.any fun ks => ks.modifiers.orKey key == ks.modifiers) with h7 | h7 <;>
    simp [State.process, h1, h2, h3, h4, h5, h6, h7]

/-- Match arm `(true, _, _, _, true)` (lines 175-180): release of a designated
global modifier outside a grab clears `grab_all` and forwards the event. -/
lemma process_of_global_release (charFor : Keysym → Option Char) (s : State) (key : Keysym)
    (h1 : s.has_client = true) (h2 : s.grab_all = false) (h3 : s.notify_all = false)
    (h4 : s.modifiers.contains key = true) :
    s.process charFor key true =
      (KeyEventType.SendToAT ⟨true, s.pressed_modifiers, key, charFor key, 0⟩,
       { s with grab_all := false }) := by
  rcases Bool.dichotomy s.pressed_modifiers.is_empty with h5 | h5 <;>
    rcases Bool.dichotomy (s.pressed.contains key) with h6 | h6 <;>
    rcases Bool.dichotomy
      (s.keystrokes.any fun ks => ks.modifiers.orKey key == ks.modifiers) with h7 | h7 <;>
    simp [State.process, h1, h2, h3, h4, h5, h6, h7]

/-- Match arm `(false, true, false, _, false)` (lines 185-188): press of an
untracked non-modifier key while the modifier mask is non-empty records the key
in `pressed` and forwards the event. -/
lemma process_of_press_new (charFor : Keysym → Option Char) (s : State) (key : Keysym)
    (h1 : s.has_client = true) (h2 : s.grab_all = false) (h3 : s.notify_all = false)
    (h4 : s.modifiers.contains key = false)
    (h5 : s.pressed_modifiers.is_empty = false)
    (h6 : s.pressed.contains key = false) :
    s.process charFor key false =
      (KeyEventType.SendToAT ⟨false, s.pressed_modifiers, key, charFor key, 0⟩,
       { s with pressed := s.pressed ++ [key] }) := by
  rcases Bool.dichotomy
      (s.keystrokes.any fun ks => ks.modifiers.orKey key == ks.modifiers) with h7 | h7 <;>
    simp [State.process, h1, h2, h3, h4, h5, h6, h7]

/-- Match arm `(false, true, true, _, true)` (lines 189-192): release of a
tracked key while the modifier mask is non-empty removes the key from `pressed`
and forwards the event. -/
lemma process_of_release_tracked (charFor : Keysym → Option Char) (s : State) (key : Keysym)
    (h1 : s.has_client = true) (h2 : s.grab_all = false) (h3 : s.notify_all = false)
    (h4 : s.modifiers.contains key = false)
    (h5 : s.pressed_modifiers.is_empty = false)
    (h6 : s.pressed.contains key = true) :
    s.process charFor key true =
      (KeyEventType.SendToAT ⟨true, s.pressed_modifiers, key, charFor key, 0⟩,
       { s with pressed := s.pressed.filter fun k => k != key }) := by
  rcases Bool.dichotomy
      (s.keystrokes.any fun ks => ks.modifiers.orKey key == ks.modifiers) with h7 | h7 <;>
    simp [State.process, h1, h2, h3, h4, h5, h6, h7]

/-- Match arm `(false, false, false, false, _)` (line 199): no modifier context
and nothing tracked means plain pass-through, no mutation. -/
lemma process_of_passthrough (charFor : Keysym → Option Char) (s : State) (key : Keysym)
    (release : Bool)
    (h1 : s.has_client = true) (h2 : s.grab_all = false) (h3 : s.notify_all = false)
    (h4 : s.modifiers.contains key = false)
    (h5 : s.pressed_modifiers.is_empty = true)
    (h6 : s.pressed.contains key = false)
    (h7 : (s.keystrokes.any fun ks => ks.modifiers.orKey key == ks.modifiers) = false) :
    s.process charFor key release = (KeyEventType.ProcessNormally, s) := by
  cases release <;> simp [State.process, h1, h2, h3, h4, h5, h6, h7]

/-- Whatever branch is taken, `process` never changes `pressed_modifiers`
(the two assignments touching it are commented out in the source). -/
lemma process_pressed_modifiers_frame (charFor : Keysym → Option Char) (s : State)
    (key : Keysym) (release : Bool) :
    (s.process charFor key release).2.pressed_modifiers = s.pressed_modifiers := by
  rcases Bool.dichotomy s.has_client with h0 | h0 <;>
    rcases Bool.dichotomy s.grab_all with h1 | h1 <;>
    rcases Bool.dichotomy s.notify_all with h2 | h2 <;>
    cases release <;>
    rcases Bool.dichotomy (s.modifiers.contains key) with h3 | h3 <;>
    rcases Bool.dichotomy s.pressed_modifiers.is_empty with h4 | h4 <;>
    rcases Bool.dichotomy (s.pressed.contains key) with h5 | h5 <;>
    rcases Bool.dichotomy
      (s.keystrokes.any fun ks => ks.modifiers.orKey key == ks.modifiers) with h6 | h6 <;>
    simp [State.process, h0, h1, h2, h3, h4, h5, h6]

/-- Whatever branch is taken, the payload of the classification — when there is
one — is exactly the `key_event_inner` of lines 133-139. -/
lemma process_payload_eq (charFor : Keysym → Option Char) (s : State) (key : Keysym)
    (release : Bool) :
    ((s.process charFor key release).1).payload = none ∨
    ((s.process charFor key release).1).payload =
      some ⟨release, s.pressed_modifiers, key, charFor key, 0⟩ := by
  rcases Bool.dichotomy s.has_client with h0 | h0 <;>
    rcases Bool.dichotomy s.grab_all with h1 | h1 <;>
    rcases Bool.dichotomy s.notify_all with h2 | h2 <;>
    cases release <;>
    rcases Bool.dichotomy (s.modifiers.contains key) with h3 | h3 <;>
    rcases Bool.dichotomy s.pressed_modifiers.is_empty with h4 | h4 <;>
    rcases Bool.dichotomy (s.pressed.contains key) with h5 | h5 <;>
    rcases Bool.dichotomy
      (s.keystrokes.any fun ks => ks.modifiers.orKey key == ks.modifiers) with h6 | h6 <;>
    simp [State.process, KeyEventType.payload, h0, h1, h2, h3, h4, h5, h6]

/-- `pressed_modifiers` is also invariant under processing any event list. -/
lemma processSeq_pressed_modifiers_frame (charFor : Keysym → Option Char) :
    ∀ (evs : List (Keysym × Bool)) (s : State),
      (s.processSeq charFor evs).2.pressed_modifiers = s.pressed_modifiers := by
  intro evs
  induction evs with
  | nil => intro s; rfl
  | cons ev rest ih =>
    intro s
    obtain ⟨k, r⟩ := ev
    simp [State.processSeq, ih, process_pressed_modifiers_frame]

/-- If the modifier mask starts empty, every payload emitted while processing
an event list carries the empty mask in its `state` field. -/
lemma processSeq_payload_state_empty (charFor : Keysym → Option Char) :
    ∀ (evs : List (Keysym × Bool)) (s : State),
      s.pressed_modifiers = ModMask.empty →
      ∀ t ∈ (s.processSeq charFor evs).1, ∀ e, t.payload = some e →
        e.state = ModMask.empty := by
  intro evs
  induction evs with
  | nil => intro s _ t ht; simp [State.processSeq] at ht
  | cons ev rest ih =>
    intro s hs t ht e he
    obtain ⟨k, r⟩ := ev
    simp only [State.processSeq, List.mem_cons] at ht
    rcases ht with ht | ht
    · subst ht
      rcases process_payload_eq charFor s k r with hp | hp
      · rw [hp] at he; exact absurd he (by simp)
      · rw [hp] at he
        have : e = ⟨r, s.pressed_modifiers, k, charFor k, 0⟩ := by
          exact (Option.some.injEq _ _ ▸ he).symm
        rw [this, hs]
    · exact ih (s.process charFor k r).2
        (by rw [process_pressed_modifiers_frame, hs]) t ht e he

/-! ## Fidelity of the embedding against the repository's tests -/

/-- The embedding reproduces the event/result trace asserted by
`test_global_standard_keybind` in `test.rs`. -/
theorem embedding_matches_test_global_standard_keybind :
    (State.processSeq charForTest
      { has_client := true, grab_all := false, notify_all := false,
        modifiers := [keysymCapsLock], pressed_modifiers := ModMask.empty,
        keystrokes := [], pressed := [] }
      [(keysymH, false), (keysymH, true), (keysymCapsLock, false), (keysymH, false),
       (keysymH, true), (keysymCapsLock, true), (keysymH, false), (keysymH, true)]).1 =
    [KeyEventType.ProcessNormally,
     KeyEventType.ProcessNormally,
     KeyEventType.SendToAT ⟨false, ModMask.empty, keysymCapsLock, none, 0⟩,
     KeyEventType.SendToAT ⟨false, ModMask.empty, keysymH, some 'H', 0⟩,
     KeyEventType.SendToAT ⟨true, ModMask.empty, keysymH, some 'H', 0⟩,
     KeyEventType.SendToAT ⟨true, ModMask.empty, keysymCapsLock, none, 0⟩,
     KeyEventType.ProcessNormally,
     KeyEventType.ProcessNormally] := by decide

/-- The embedding reproduces the event/result trace asserted by
`test_global_non_standard_keybind` in `test.rs`. -/
theorem embedding_matches_test_global_non_standard_keybind :
    (State.processSeq charForTest
      { has_client := true, grab_all := false, notify_all := false,
        modifiers := [keysymH], pressed_modifiers := ModMask.empty,
        keystrokes := [⟨ModMask.empty, keysymF⟩], pressed := [] }
      [(keysymF, false), (keysymF, true), (keysymH, false), (keysymF, false),
       (keysymF, true), (keysymH, true), (keysymF, false), (keysymF, true)]).1 =
    [KeyEventType.ProcessNormally,
     KeyEventType.ProcessNormally,
     KeyEventType.SendToAT ⟨false, ModMask.empty, keysymH, some 'H', 0⟩,
     KeyEventType.SendToAT ⟨false, ModMask.empty, keysymF, some 'F', 0⟩,
     KeyEventType.SendToAT ⟨true, ModMask.empty, keysymF, some 'F', 0⟩,
     KeyEventType.SendToAT ⟨true, ModMask.empty, keysymH, some 'H', 0⟩,
     KeyEventType.ProcessNormally,
     KeyEventType.ProcessNormally] := by decide

/-! ## Claims -/

/-- C1, counterexample: in `stateGrabIdle` (client attached, `grab_all` and
`notify_all` off, `Caps_Lock` designated), pressing `Caps_Lock` does not return
`Swallow` (it returns `SendToAT`), and `pressed_modifiers` is left unchanged
rather than accumulating the key. -/
theorem c1_counterexample :
    (stateGrabIdle.process charForTest keysymCapsLock false).1 ≠ KeyEventType.Swallow ∧
    (stateGrabIdle.process charForTest keysymCapsLock false).2.pressed_modifiers =
      stateGrabIdle.pressed_modifiers := by decide

/-- C1 (amended): for every state with `has_client = true`, `grab_all = false`,
`notify_all = false`, and every key contained in `modifiers`,
`process(key, false)` sets `grab_all` to true, leaves `pressed_modifiers`
unchanged, and returns `SendToAT(key_event)`. -/
theorem c1_global_modifier_press (charFor : Keysym → Option Char) (s : State)
    (key : Keysym) (h1 : s.has_client = true) (h2 : s.grab_all = false)
    (h3 : s.notify_all = false) (h4 : s.modifiers.contains key = true) :
    s.process charFor key false =
      (KeyEventType.SendToAT ⟨false, s.pressed_modifiers, key, charFor key, 0⟩,
       { s with grab_all := true }) :=
  process_of_global_press charFor s key h1 h2 h3 h4

/-- C1 witness: the amended claim evaluated at `stateGrabIdle` on a
`Caps_Lock` press. -/
theorem c1_witness :
    stateGrabIdle.process charForTest keysymCapsLock false =
      (KeyEventType.SendToAT ⟨false, ModMask.empty, keysymCapsLock, none, 0⟩,
       { stateGrabIdle with grab_all := true }) :=
  c1_global_modifier_press charForTest stateGrabIdle keysymCapsLock rfl rfl rfl
    (by decide)

/-- C2, counterexample: pressing then releasing the designated modifier
`Caps_Lock` in `stateGrabIdle` returns `SendToAT` twice, not `Swallow` twice as
the claim states. -/
theorem c2_counterexample :
    (stateGrabIdle.process charForTest keysymCapsLock false).1 ≠
      KeyEventType.Swallow ∧
    ((stateGrabIdle.process charForTest keysymCapsLock false).2.process charForTest
        keysymCapsLock true).1 ≠ KeyEventType.Swallow := by decide

/-- C2 (amended): for every state with `has_client = true`, `grab_all = false`,
`notify_all = false` and every key `m` contained in `modifiers`, calling
`process(m, false)` and then `process(m, true)` returns `SendToAT` both times
and restores the entire state (in particular `pressed_modifiers` and
`grab_all`) to exactly the values held before the pair of calls. -/
theorem c2_modifier_roundtrip (charFor : Keysym → Option Char) (s : State)
    (m : Keysym) (h1 : s.has_client = true) (h2 : s.grab_all = false)
    (h3 : s.notify_all = false) (h4 : s.modifiers.contains m = true) :
    (s.process charFor m false).1 =
      KeyEventType.SendToAT ⟨false, s.pressed_modifiers, m, charFor m, 0⟩ ∧
    ((s.process charFor m false).2.process charFor m true).1 =
      KeyEventType.SendToAT ⟨true, s.pressed_modifiers, m, charFor m, 0⟩ ∧
    ((s.process charFor m false).2.process charFor m true).2 = s := by
  have hp := process_of_global_press charFor s m h1 h2 h3 h4
  have hr := process_of_grab_end charFor { s with grab_all := true } m h1 rfl h4
  rw [hp, hr]
  refine ⟨rfl, rfl, ?_⟩
  rw [← h2]

/-- C2 witness: the amended claim evaluated at `stateGrabIdle` with the
modifier `Caps_Lock`. -/
theorem c2_witness :
    (stateGrabIdle.process charForTest keysymCapsLock false).1 =
      KeyEventType.SendToAT ⟨false, ModMask.empty, keysymCapsLock, none, 0⟩ ∧
    ((stateGrabIdle.process charForTest keysymCapsLock false).2.process charForTest
        keysymCapsLock true).1 =
      KeyEventType.SendToAT ⟨true, ModMask.empty, keysymCapsLock, none, 0⟩ ∧
    ((stateGrabIdle.process charForTest keysymCapsLock false).2.process charForTest
        keysymCapsLock true).2 = stateGrabIdle :=
  c2_modifier_roundtrip charForTest stateGrabIdle keysymCapsLock rfl rfl rfl
    (by decide)

/-- C3, counterexample: releasing `H` while a full grab is active yields a
`SendToAT` payload whose `release` field is true and whose `unichar` is
`some 'H'` — the character is not absent on release events, because the code
computes `key.key_char()` independently of the release flag (and the
repository's own test expects `Some('H')` on the `H` release). -/
theorem c3_counterexample :
    (stateGrabbing.process charForTest keysymH true).1 =
      KeyEventType.SendToAT ⟨true, ModMask.empty, keysymH, some 'H', 0⟩ := by
  decide

/-- C3 (amended): every `KeyEvent` payload placed inside a `SendToAT` or
`SendToATAndProcess` result of `process(key, release)` has `state` equal to
`pressed_modifiers` at classification time, `keysym` equal to `key`, `keycode`
equal to `0`, `release` equal to the release flag, and `unichar` equal to the
best-effort character for the key — absent exactly when the key has no
printable mapping, regardless of whether the event is a release. -/
theorem c3_payload_shape (charFor : Keysym → Option Char) (s : State)
    (key : Keysym) (release : Bool) (e : KeyEvent)
    (h : ((s.process charFor key release).1).payload = some e) :
    e.state = s.pressed_modifiers ∧ e.keysym = key ∧ e.keycode = 0 ∧
      e.release = release ∧ e.unichar = charFor key := by
  rcases process_payload_eq charFor s key release with hp | hp
  · rw [hp] at h
    exact absurd h (by simp)
  · rw [hp] at h
    have he : e = ⟨release, s.pressed_modifiers, key, charFor key, 0⟩ :=
      (Option.some.injEq _ _ ▸ h).symm
    rw [he]
    exact ⟨rfl, rfl, rfl, rfl, rfl⟩

/-- C3 witness: the amended claim evaluated on the payload of an `H` press
while a full grab is active. -/
theorem c3_witness :
    (⟨false, ModMask.empty, keysymH, some 'H', 0⟩ : KeyEvent).state =
        stateGrabbing.pressed_modifiers ∧
      (⟨false, ModMask.empty, keysymH, some 'H', 0⟩ : KeyEvent).keysym = keysymH ∧
      (⟨false, ModMask.empty, keysymH, some 'H', 0⟩ : KeyEvent).keycode = 0 ∧
      (⟨false, ModMask.empty, keysymH, some 'H', 0⟩ : KeyEvent).release = false ∧
      (⟨false, ModMask.empty, keysymH, some 'H', 0⟩ : KeyEvent).unichar =
        charForTest keysymH :=
  c3_payload_shape charForTest stateGrabbing keysymH false
    ⟨false, ModMask.empty, keysymH, some 'H', 0⟩ (by decide)

/-- C4: for every key and every release flag, if `has_client` is false then
`process(key, release)` returns `ProcessNormally` and leaves every field of
`State` unchanged. -/
theorem c4_no_client_invariance (charFor : Keysym → Option Char) (s : State)
    (key : Keysym) (release : Bool) (h : s.has_client = false) :
    s.process charFor key release = (KeyEventType.ProcessNormally, s) :=
  process_of_no_client charFor s key release h

/-- C4 witness: the claim evaluated at a detached-client state with every
other field non-default. -/
theorem c4_witness :
    stateNoClient.process charForTest keysymA false =
      (KeyEventType.ProcessNormally, stateNoClient) :=
  c4_no_client_invariance charForTest stateNoClient keysymA false rfl

/-- C5: for every state with `has_client = true` and `grab_all = true`, and
every key contained in `modifiers`, `process(key, true)` clears `grab_all` to
false and returns `SendToAT(key_event)` — the grab-terminating release is
forwarded, never swallowed. -/
theorem c5_grab_terminating_release (charFor : Keysym → Option Char) (s : State)
    (key : Keysym) (h1 : s.has_client = true) (h2 : s.grab_all = true)
    (h3 : s.modifiers.contains key = true) :
    s.process charFor key true =
      (KeyEventType.SendToAT ⟨true, s.pressed_modifiers, key, charFor key, 0⟩,
       { s with grab_all := false }) :=
  process_of_grab_end charFor s key h1 h2 h3

/-- C5 witness: the claim evaluated at `stateGrabbing` on the release of the
designated modifier `Caps_Lock`. -/
theorem c5_witness :
    stateGrabbing.process charForTest keysymCapsLock true =
      (KeyEventType.SendToAT ⟨true, ModMask.empty, keysymCapsLock, none, 0⟩,
       { stateGrabbing with grab_all := false }) :=
  c5_grab_terminating_release charForTest stateGrabbing keysymCapsLock rfl rfl
    (by decide)

/-- C6: for every state with `has_client = true` and `grab_all = true`, and
every event that is not a release of a designated global modifier, `process`
returns `SendToAT(key_event)` and changes no field of `State`; in particular
`grab_all` remains true after a release of a key not in `modifiers`, since the
resulting state is the input state itself. -/
theorem c6_grab_all_mirror (charFor : Keysym → Option Char) (s : State)
    (key : Keysym) (release : Bool) (h1 : s.has_client = true)
    (h2 : s.grab_all = true)
    (h3 : (s.modifiers.contains key && release) = false) :
    s.process charFor key release =
      (KeyEventType.SendToAT ⟨release, s.pressed_modifiers, key, charFor key, 0⟩, s) :=
  process_of_grab_all charFor s key release h1 h2 h3

/-- C6 witness: the claim evaluated at `stateGrabbing` on the release of `X`,
a key not designated as a global modifier; the state — `grab_all` included —
is unchanged. -/
theorem c6_witness :
    stateGrabbing.process charForTest keysymX true =
      (KeyEventType.SendToAT ⟨true, ModMask.empty, keysymX, none, 0⟩,
       stateGrabbing) :=
  c6_grab_all_mirror charForTest stateGrabbing keysymX true rfl rfl (by decide)

/-- C7: for every state with `has_client = true`, `grab_all = false` and
`notify_all = true`, `process(key, release)` returns
`SendToATAndProcess(key_event)` for every event and mutates no field of
`State`. -/
theorem c7_notify_all_mirror (charFor : Keysym → Option Char) (s : State)
    (key : Keysym) (release : Bool) (h1 : s.has_client = true)
    (h2 : s.grab_all = false) (h3 : s.notify_all = true) :
    s.process charFor key release =
      (KeyEventType.SendToATAndProcess
        ⟨release, s.pressed_modifiers, key, charFor key, 0⟩, s) :=
  process_of_notify_all charFor s key release h1 h2 h3

/-- C7 witness: the claim evaluated at `stateNotify` on an `H` press. -/
theorem c7_witness :
    stateNotify.process charForTest keysymH false =
      (KeyEventType.SendToATAndProcess
        ⟨false, ModMask.empty, keysymH, some 'H', 0⟩, stateNotify) :=
  c7_notify_all_mirror charForTest stateNotify keysymH false rfl rfl rfl

/-- C8, counterexample: `stateStrayMask` satisfies every condition the claim
names — client attached, `modifiers` and `keystrokes` empty, both mode flags
off — yet, because its `pressed_modifiers` mask is non-empty, a press of `A`
is classified `SendToAT`, not `ProcessNormally`. -/
theorem c8_counterexample :
    (stateStrayMask.process charForTest keysymA false).1 ≠
      KeyEventType.ProcessNormally := by decide

/-- C8 (amended): for every state with `has_client = true`, `modifiers` empty,
`keystrokes` empty, `grab_all = false`, `notify_all = false`, and additionally
`pressed_modifiers` empty and `pressed` empty, every event is classified
`ProcessNormally` and the state is unchanged. -/
theorem c8_passthrough_default (charFor : Keysym → Option Char) (s : State)
    (key : Keysym) (release : Bool) (h1 : s.has_client = true)
    (h2 : s.grab_all = false) (h3 : s.notify_all = false)
    (h4 : s.modifiers = []) (h5 : s.keystrokes = [])
    (h6 : s.pressed_modifiers = ModMask.empty) (h7 : s.pressed = []) :
    s.process charFor key release = (KeyEventType.ProcessNormally, s) :=
  process_of_passthrough charFor s key release h1 h2 h3
    (by rw [h4]; rfl) (by rw [h6]; rfl) (by rw [h7]; rfl) (by rw [h5]; rfl)

/-- C8 witness: the amended claim evaluated at the fully default
client-attached state on an `A` press. -/
theorem c8_witness :
    statePassDefault.process charForTest keysymA false =
      (KeyEventType.ProcessNormally, statePassDefault) :=
  c8_passthrough_default charForTest statePassDefault keysymA false rfl rfl rfl
    rfl rfl rfl rfl

/-- C9: for every state with `has_client = true`, `grab_all = false`,
`notify_all = false` and `pressed_modifiers` non-empty, and every key not
contained in `modifiers`: a press of a key not already in `pressed` appends it
to `pressed` and returns `SendToAT(key_event)`, and a release of a key
contained in `pressed` removes it from `pressed` and returns
`SendToAT(key_event)`; removal thus requires prior membership in `pressed`,
which only a press establishes. -/
theorem c9_pressed_tracking (charFor : Keysym → Option Char) (s : State)
    (key : Keysym) (h1 : s.has_client = true) (h2 : s.grab_all = false)
    (h3 : s.notify_all = false) (h4 : s.pressed_modifiers.is_empty = false)
    (h5 : s.modifiers.contains key = false) :
    (s.pressed.contains key = false →
      s.process charFor key false =
        (KeyEventType.SendToAT ⟨false, s.pressed_modifiers, key, charFor key, 0⟩,
         { s with pressed := s.pressed ++ [key] })) ∧
    (s.pressed.contains key = true →
      s.process charFor key true =
        (KeyEventType.SendToAT ⟨true, s.pressed_modifiers, key, charFor key, 0⟩,
         { s with pressed := s.pressed.filter fun k => k != key })) :=
  ⟨fun h6 => process_of_press_new charFor s key h1 h2 h3 h5 h4 h6,
   fun h6 => process_of_release_tracked charFor s key h1 h2 h3 h5 h4 h6⟩

/-- C9 witness: the claim evaluated at `stateHeld`: pressing the untracked `A`
appends it to `pressed`, and releasing the tracked `H` removes it. -/
theorem c9_witness :
    stateHeld.process charForTest keysymA false =
      (KeyEventType.SendToAT ⟨false, ⟨0xFFE5⟩, keysymA, none, 0⟩,
       { stateHeld with pressed := [keysymH, keysymA] }) ∧
    stateHeld.process charForTest keysymH true =
      (KeyEventType.SendToAT ⟨true, ⟨0xFFE5⟩, keysymH, some 'H', 0⟩,
       { stateHeld with pressed := [] }) :=
  ⟨(c9_pressed_tracking charForTest stateHeld keysymA rfl rfl rfl (by decide)
      (by decide)).1 (by decide),
   (c9_pressed_tracking charForTest stateHeld keysymH rfl rfl rfl (by decide)
      (by decide)).2 (by decide)⟩

/-- C10: `process` never changes `pressed_modifiers` (the assignments touching
it are commented out in the source); consequently processing any event list
leaves it unchanged, and if it starts empty then every payload emitted along
the way carries the empty mask in its `state` field. -/
theorem c10_pressed_modifiers_invariant (charFor : Keysym → Option Char)
    (s : State) (key : Keysym) (release : Bool) (evs : List (Keysym × Bool)) :
    (s.process charFor key release).2.pressed_modifiers = s.pressed_modifiers ∧
    (s.processSeq charFor evs).2.pressed_modifiers = s.pressed_modifiers ∧
    (s.pressed_modifiers = ModMask.empty →
      ∀ t ∈ (s.processSeq charFor evs).1, ∀ e, t.payload = some e →
        e.state = ModMask.empty) :=
  ⟨process_pressed_modifiers_frame charFor s key release,
   processSeq_pressed_modifiers_frame charFor evs s,
   fun h => processSeq_payload_state_empty charFor evs s h⟩

/-- C10 witness: the invariant evaluated at `stateGrabIdle` across the
two-event sequence `Caps_Lock` press, `H` press; the first emitted payload
carries the empty mask. -/
theorem c10_witness :
    (stateGrabIdle.processSeq charForTest
        [(keysymCapsLock, false), (keysymH, false)]).2.pressed_modifiers =
      stateGrabIdle.pressed_modifiers ∧
    (⟨false, ModMask.empty, keysymCapsLock, none, 0⟩ : KeyEvent).state =
      ModMask.empty :=
  ⟨(c10_pressed_modifiers_invariant charForTest stateGrabIdle keysymH false
      [(keysymCapsLock, false), (keysymH, false)]).2.1,
   (c10_pressed_modifiers_invariant charForTest stateGrabIdle keysymH false
      [(keysymCapsLock, false), (keysymH, false)]).2.2 rfl
      (KeyEventType.SendToAT ⟨false, ModMask.empty, keysymCapsLock, none, 0⟩)
      (by decide) ⟨false, ModMask.empty, keysymCapsLock, none, 0⟩ (by decide)⟩
